import Mathlib

/-!
Shallow embedding of the `metrics` Go package (files `metrics.go` and a
second file in the same package providing `PushCounter`).

Modelling choices:
* The process environment is a function `String → String`; Go's `os.Getenv`
  returns `""` for an unset variable, so "unset" is modelled by the value `""`.
* The package-level client state (`clientInit : sync.Once`,
  `metricClient : *monitoring.MetricClient`) is modelled by an explicit
  `ClientStatus` threaded through the calls; `metricClient == nil` holds
  exactly in the non-`ready` states.  Whether `monitoring.NewMetricClient`
  would succeed at the moment the `Once` body runs is an external fact,
  passed as the boolean `newOk`.
* A Go `map[string]string` is `Option (List (String × String))`: `none` is a
  nil map.  Reading from a nil map yields the zero value (`none` here);
  writing to a nil map panics, which the `Outcome` type records.
* Machine floats are modelled by their exact rational values (`Rat`); the Go
  conversion `float64(v)` on a `float32` is value-exact (every binary32 value
  is a binary64 value), hence modelled by the identity on the rational value.
* The narrowing-free Go conversions `int64(v)` for `v : int` / `int32` are
  value-exact and modelled by the identity on `Int`.
* The remote call `metricClient.CreateTimeSeries(ctx, req)` together with the
  wall-clock timestamp are external effects: the timestamp is a parameter
  `now`, and the request that would be submitted is returned as data
  (`none` when no remote call is attempted).  Log output is not modelled.
-/

namespace Metrics

/-- Process environment as seen through `os.Getenv`: unset variables read as `""`. -/
def Env : Type := String → String

/-- Result of a call that may terminate by a Go runtime panic. -/
inductive Outcome (α : Type) where
  | ok (val : α)
  | panicked
deriving DecidableEq, Repr

/-- Go `map[string]string` value: `none` is a nil map, `some l` a map with
entries `l` (association list, first binding wins on lookup). -/
abbrev GoStrMap : Type := Option (List (String × String))

/-- Go map read `m[k]`: a nil map reads as empty (`ok = false` for every key). -/
def mapGet (m : GoStrMap) (k : String) : Option String :=
  match m with
  | none => none
  | some l => l.lookup k

/-- Runtime value handed to `PushMetric` as `interface{}`, one constructor per
case of the type switch at lines 69–91 of `metrics.go`; `vOther` carries the
dynamic type name of any value outside the supported kinds. -/
inductive GoValue where
  | vInt (n : Int)
  | vInt32 (n : Int)
  | vInt64 (n : Int)
  | vFloat32 (x : Rat)
  | vFloat64 (x : Rat)
  | vString (s : String)
  | vBool (b : Bool)
  | vOther (typeName : String)
deriving DecidableEq, Repr

/-- Supported kinds of the type switch: everything except the `default` case. -/
def GoValue.isSupported : GoValue → Bool
  | .vOther _ => false
  | _ => true

/-- Wire value `monpb.TypedValue`: one of the three oneof cases the package
constructs (`Int64Value`, `DoubleValue`, `StringValue`). -/
inductive TypedValue where
  | int64Value (n : Int)
  | doubleValue (x : Rat)
  | stringValue (s : String)
deriving DecidableEq, Repr

/-- Widening conversion `float64(v)` applied to a `float32` at line 77 of
`metrics.go`: value-exact, hence the identity on the modelled rational value. -/
def f32ToF64 (x : Rat) : Rat := x

/-- Type switch of `PushMetric` (lines 69–91 of `metrics.go`): the `TypedValue`
built for a supported value, `none` for the `default` (reject) branch. -/
def typedValueOf : GoValue → Option TypedValue
  | .vInt n => some (.int64Value n)
  | .vInt32 n => some (.int64Value n)
  | .vInt64 n => some (.int64Value n)
  | .vFloat32 x => some (.doubleValue (f32ToF64 x))
  | .vFloat64 x => some (.doubleValue x)
  | .vString s => some (.stringValue s)
  | .vBool b => some (.int64Value (if b then 1 else 0))
  | .vOther _ => none

/-- Wire `mpb.Metric`: metric type string and labels. -/
structure Metric where
  type : String
  labels : List (String × String)
deriving DecidableEq, Repr

/-- Wire `gcprpb.MonitoredResource`: resource type string and labels. -/
structure MonitoredResource where
  type : String
  labels : List (String × String)
deriving DecidableEq, Repr

/-- Wire `monpb.Point`: a zero-width interval ending at `intervalEnd` (the
wall-clock time of the call) and a typed value. -/
structure Point where
  intervalEnd : Nat
  value : TypedValue
deriving DecidableEq, Repr

/-- Wire `monpb.TimeSeries`: metric identity, resource attribution, points. -/
structure TimeSeries where
  metric : Metric
  resource : MonitoredResource
  points : List Point
deriving DecidableEq, Repr

/-- Wire `monpb.CreateTimeSeriesRequest`: project name and time series list. -/
structure CreateTimeSeriesRequest where
  name : String
  timeSeries : List TimeSeries
deriving DecidableEq, Repr

/-- State of the package-level client handle: `ready` means
`metricClient ≠ nil`, `disabled` means the one construction attempt failed
(`metricClient == nil`, `clientErr ≠ nil`), `uninit` means the `sync.Once`
has not yet run. -/
inductive ClientStatus where
  | uninit
  | ready
  | disabled
deriving DecidableEq, Repr

/-- Lines 41–48: `clientInit.Do` runs `monitoring.NewMetricClient` only in the
`uninit` state; `newOk` says whether that construction succeeds at that moment.
In any other state the `Once` body is skipped and the state is unchanged. -/
def initClient (newOk : Bool) : ClientStatus → ClientStatus
  | .uninit => if newOk then .ready else .disabled
  | s => s

/-- The `initClient` step instrumented with the number of times the `Once`
body (the construction attempt) has executed. -/
def initClientAttempts (newOk : Bool) : ClientStatus × Nat → ClientStatus × Nat
  | (.uninit, n) => ((if newOk then .ready else .disabled), n + 1)
  | (s, n) => (s, n)

/-- Resolution of the project id (lines 25–30 of `metrics.go`): the value of
`GOOGLE_CLOUD_PROJECT` when non-empty, else the default `"p48-development"`. -/
def getProjectID (env : Env) : String :=
  let v := env "GOOGLE_CLOUD_PROJECT"
  if v ≠ "" then v else "p48-development"

/-- Resolution of the function name (lines 33–38 of `metrics.go`): the value
of `FUNCTION_NAME` when non-empty, else the default `"Buy"`. -/
def getFunctionName (env : Env) : String :=
  let v := env "FUNCTION_NAME"
  if v ≠ "" then v else "Buy"

/-- Label injection (lines 62–65 of `metrics.go`, lines 63–66 of the counter
file): `if _, ok := labels["function_name"]; !ok { labels["function_name"] = functionName }`.
A nil map reads as lacking every key, so the assignment executes and panics
("assignment to entry in nil map"); on a non-nil map the entry is added only
when absent, an existing entry is never overwritten. -/
def injectFunctionName (labels : GoStrMap) (functionName : String) :
    Outcome (List (String × String)) :=
  match labels with
  | none => .panicked
  | some l =>
    if (l.lookup "function_name").isSome then .ok l
    else .ok (l ++ [("function_name", functionName)])

/-- Lines 51–120 of `metrics.go` (`PushMetric`): initialize the client, bail
out when it is nil, resolve configuration, inject the `function_name` label,
dispatch on the value's runtime type, and build the one-series one-point
request that would be submitted.  Returns the client state after the call and
either a panic, or the caller-visible label map together with the request sent
(`none` when the call returns without a remote call). -/
def PushMetric (env : Env) (newOk : Bool) (st : ClientStatus)
    (metricName : String) (value : GoValue) (labels : GoStrMap) (now : Nat) :
    ClientStatus × Outcome (GoStrMap × Option CreateTimeSeriesRequest) :=
  let st := initClient newOk st
  match st with
  | .ready =>
    let projectID := getProjectID env
    let functionName := getFunctionName env
    let projectName := "projects/" ++ projectID
    match injectFunctionName labels functionName with
    | .panicked => (.ready, .panicked)
    | .ok l =>
      match typedValueOf value with
      | none => (.ready, .ok (some l, none))
      | some tv =>
        let point : Point := { intervalEnd := now, value := tv }
        let ts : TimeSeries :=
          { metric := { type := "custom.googleapis.com/" ++ metricName, labels := l },
            resource := { type := "global", labels := [("project_id", projectID)] },
            points := [point] }
        let req : CreateTimeSeriesRequest :=
          { name := projectName, timeSeries := [ts] }
        (.ready, .ok (some l, some req))
  | s => (s, .ok (labels, none))

/-- Lines 51–100 of the counter file (`PushCounter`): same pipeline as
`PushMetric` with the point value fixed to `Int64Value: 1`. -/
def PushCounter (env : Env) (newOk : Bool) (st : ClientStatus)
    (metricName : String) (labels : GoStrMap) (now : Nat) :
    ClientStatus × Outcome (GoStrMap × Option CreateTimeSeriesRequest) :=
  let st := initClient newOk st
  match st with
  | .ready =>
    let projectID := getProjectID env
    let functionName := getFunctionName env
    let projectName := "projects/" ++ projectID
    match injectFunctionName labels functionName with
    | .panicked => (.ready, .panicked)
    | .ok l =>
      let point : Point := { intervalEnd := now, value := .int64Value 1 }
      let ts : TimeSeries :=
        { metric := { type := "custom.googleapis.com/" ++ metricName, labels := l },
          resource := { type := "global", labels := [("project_id", projectID)] },
          points := [point] }
      let req : CreateTimeSeriesRequest :=
        { name := projectName, timeSeries := [ts] }
      (.ready, .ok (some l, some req))
  | s => (s, .ok (labels, none))

/-- Environment with every variable unset (`os.Getenv` returns `""`). -/
def emptyEnv : Env := fun _ => ""

/-- Request submitted by a call, if any: `none` when the call returned without
a remote call or panicked. -/
def sentRequest (r : ClientStatus × Outcome (GoStrMap × Option CreateTimeSeriesRequest)) :
    Option CreateTimeSeriesRequest :=
  match r with
  | (_, .ok (_, some req)) => some req
  | _ => none

/-- Typed value of the single point of the single time series of the request a
call submitted, if the call submitted a request of exactly that shape. -/
def sentPointValue (r : ClientStatus × Outcome (GoStrMap × Option CreateTimeSeriesRequest)) :
    Option TypedValue :=
  match sentRequest r with
  | some req =>
    match req.timeSeries with
    | [ts] =>
      match ts.points with
      | [p] => some p.value
      | _ => none
    | _ => none
  | none => none

theorem injectFunctionName_some_eq (l : List (String × String)) (fn : String) :
    injectFunctionName (some l) fn =
      .ok (if (l.lookup "function_name").isSome then l
           else l ++ [("function_name", fn)]) := by
  by_cases h : (l.lookup "function_name").isSome <;> simp [injectFunctionName, h]

theorem lookup_append_self (l : List (String × String)) (k fn : String)
    (h : l.lookup k = none) : (l ++ [(k, fn)]).lookup k = some fn := by
  induction l with
  | nil => simp [List.lookup]
  | cons a t ih =>
    obtain ⟨k', v'⟩ := a
    by_cases hk : (k == k') = true
    · simp [List.lookup, hk] at h
    · simp only [List.cons_append, List.lookup, hk] at h ⊢
      exact ih h

theorem pushMetric_fst (env : Env) (newOk : Bool) (st : ClientStatus)
    (mn : String) (v : GoValue) (labels : GoStrMap) (now : Nat) :
    (PushMetric env newOk st mn v labels now).1 = initClient newOk st := by
  simp only [PushMetric]
  split
  · rename_i hs
    rw [hs]
    split
    · rfl
    · split <;> rfl
  · rfl

theorem pushCounter_fst (env : Env) (newOk : Bool) (st : ClientStatus)
    (mn : String) (labels : GoStrMap) (now : Nat) :
    (PushCounter env newOk st mn labels now).1 = initClient newOk st := by
  simp only [PushCounter]
  split
  · rename_i hs
    rw [hs]
    split <;> rfl
  · rfl

/-- C4: if client construction failed (the handle is nil after the one-time
initialization attempt, modelled by the `disabled` state), every subsequent
`PushMetric` or `PushCounter` call is a no-op: the label map is untouched, no
request is built or sent, and the state stays `disabled` whatever the outcome
of a hypothetical fresh construction would be (no retry, no recovery). -/
theorem disabled_client_emission_noop :
    ∀ (env : Env) (newOk : Bool) (mn : String) (v : GoValue)
      (labels : GoStrMap) (now : Nat),
      initClient newOk .disabled = .disabled ∧
      PushMetric env newOk .disabled mn v labels now = (.disabled, .ok (labels, none)) ∧
      PushCounter env newOk .disabled mn labels now = (.disabled, .ok (labels, none)) := by
  intro env newOk mn v labels now
  exact ⟨rfl, rfl, rfl⟩

theorem pushCounter_as_pushMetric_one (env : Env) (newOk : Bool)
    (st : ClientStatus) (mn : String) (labels : GoStrMap) (now : Nat) :
    PushCounter env newOk st mn labels now =
      PushMetric env newOk st mn (.vInt 1) labels now := by
  simp only [PushCounter, PushMetric, typedValueOf]

/-- C7: `PushCounter` is behaviourally equivalent to `PushMetric` with the
value `1` (Go `int`): for every environment, construction outcome, client
state, metric name, label map and timestamp the two calls return the same
state, the same caller-visible label map, the same request, and panic in the
same cases. -/
theorem pushCounter_eq_pushMetric_one :
    ∀ (env : Env) (newOk : Bool) (st : ClientStatus) (mn : String)
      (labels : GoStrMap) (now : Nat),
      PushCounter env newOk st mn labels now =
        PushMetric env newOk st mn (.vInt 1) labels now := by
  intro env newOk st mn labels now
  exact pushCounter_as_pushMetric_one env newOk st mn labels now

/-- C9: with a non-nil client handle (`ready`) and a nil label map, both
`PushMetric` and `PushCounter` panic at the label-injection assignment
(assignment to entry in a nil map) instead of completing: the nil map lacks
every key, so the injection branch is taken and the write panics. -/
theorem nil_label_map_panics :
    ∀ (env : Env) (newOk : Bool) (mn : String) (v : GoValue) (now : Nat),
      PushMetric env newOk .ready mn v none now = (.ready, .panicked) ∧
      PushCounter env newOk .ready mn none now = (.ready, .panicked) := by
  intro env newOk mn v now
  exact ⟨rfl, rfl⟩

/-- C1: for every call to `PushMetric` on the request-constructing path (ready
client, non-nil label map) and every supported value kind, the constructed
point's typed value matches the input under the documented widening rules:
`int`, `int32` and `int64` become the same signed 64-bit integer value,
`float32` is widened exactly to a double value, `float64` stays a double
value, a string maps to a string value, and a boolean maps to integer 1
(`true`) or 0 (`false`). -/
theorem pushMetric_value_widening :
    ∀ (env : Env) (mn : String) (l : List (String × String)) (now : Nat),
      (∀ n : Int, sentPointValue (PushMetric env true .uninit mn (.vInt n) (some l) now)
          = some (.int64Value n)) ∧
      (∀ n : Int, sentPointValue (PushMetric env true .uninit mn (.vInt32 n) (some l) now)
          = some (.int64Value n)) ∧
      (∀ n : Int, sentPointValue (PushMetric env true .uninit mn (.vInt64 n) (some l) now)
          = some (.int64Value n)) ∧
      (∀ x : Rat, sentPointValue (PushMetric env true .uninit mn (.vFloat32 x) (some l) now)
          = some (.doubleValue (f32ToF64 x))) ∧
      (∀ x : Rat, sentPointValue (PushMetric env true .uninit mn (.vFloat64 x) (some l) now)
          = some (.doubleValue x)) ∧
      (∀ s : String, sentPointValue (PushMetric env true .uninit mn (.vString s) (some l) now)
          = some (.stringValue s)) ∧
      (∀ b : Bool, sentPointValue (PushMetric env true .uninit mn (.vBool b) (some l) now)
          = some (.int64Value (if b then 1 else 0))) := by
  intro env mn l now
  refine ⟨?_, ?_, ?_, ?_, ?_, ?_, ?_⟩ <;> intro a <;>
    simp [PushMetric, initClient, injectFunctionName_some_eq, typedValueOf,
      sentPointValue, sentRequest]

/-- C2 (counterexample): a call to `PushMetric` with an unsupported value, a
ready client and a nil label map does not return to the caller — it panics at
the label-injection assignment before reaching the type dispatch. -/
theorem pushMetric_unsupported_nil_map_panics :
    PushMetric emptyEnv true .uninit "m" (.vOther "chan int") none 0 =
      (.ready, .panicked) := rfl

/-- C2 (amended): for every call to `PushMetric` with an unsupported value and
a non-nil label map, whatever the client state, no request is constructed or
sent and the call returns without error or panic. -/
theorem pushMetric_unsupported_no_send :
    ∀ (env : Env) (newOk : Bool) (st : ClientStatus) (mn tn : String)
      (l : List (String × String)) (now : Nat),
      ∃ o : GoStrMap,
        PushMetric env newOk st mn (.vOther tn) (some l) now =
          (initClient newOk st, .ok (o, none)) := by
  intro env newOk st mn tn l now
  cases hs : initClient newOk st with
  | ready =>
    refine ⟨some (if (l.lookup "function_name").isSome then l
      else l ++ [("function_name", getFunctionName env)]), ?_⟩
    simp [PushMetric, hs, injectFunctionName_some_eq, typedValueOf]
  | uninit => exact ⟨some l, by simp [PushMetric, hs]⟩
  | disabled => exact ⟨some l, by simp [PushMetric, hs]⟩

theorem lookup_after_inject (l : List (String × String)) (fn : String) :
    (if (l.lookup "function_name").isSome then l
     else l ++ [("function_name", fn)]).lookup "function_name" =
      some ((l.lookup "function_name").getD fn) := by
  by_cases h : (l.lookup "function_name").isSome
  · obtain ⟨x, hx⟩ := Option.isSome_iff_exists.mp h
    simp [h, hx]
  · have hn : l.lookup "function_name" = none := Option.not_isSome_iff_eq_none.mp h
    simp [h, hn, lookup_append_self l _ fn hn]

theorem pushMetric_sent_function_label (env : Env) (newOk : Bool)
    (st : ClientStatus) (mn : String) (v : GoValue) (labels : GoStrMap)
    (now : Nat) (o : GoStrMap) (req : CreateTimeSeriesRequest)
    (h : (PushMetric env newOk st mn v labels now).2 = .ok (o, some req)) :
    ∃ ts, req.timeSeries = [ts] ∧
      ts.metric.labels.lookup "function_name" =
        some ((mapGet labels "function_name").getD (getFunctionName env)) := by
  cases hs : initClient newOk st with
  | uninit => simp [PushMetric, hs] at h
  | disabled => simp [PushMetric, hs] at h
  | ready =>
    cases labels with
    | none => simp [PushMetric, hs, injectFunctionName] at h
    | some l =>
      simp only [PushMetric, hs, injectFunctionName_some_eq] at h
      cases htv : typedValueOf v with
      | none => simp [htv] at h
      | some tv =>
        simp only [htv, Outcome.ok.injEq, Prod.mk.injEq, Option.some.injEq] at h
        obtain ⟨-, hreq⟩ := h
        subst hreq
        exact ⟨_, rfl, lookup_after_inject l (getFunctionName env)⟩

/-- C3: whenever a `PushMetric` or `PushCounter` call submits a request, the
single time series of that request carries under `"function_name"` the
caller's value for that key when the caller's label map had an entry for it
(never overwritten), and the resolved default service name when it did not
(injected). -/
theorem function_name_preserved_or_injected :
    ∀ (env : Env) (newOk : Bool) (st : ClientStatus) (mn : String)
      (labels : GoStrMap) (now : Nat),
      (∀ (v : GoValue) (o : GoStrMap) (req : CreateTimeSeriesRequest),
        (PushMetric env newOk st mn v labels now).2 = .ok (o, some req) →
        ∃ ts, req.timeSeries = [ts] ∧
          ts.metric.labels.lookup "function_name" =
            some ((mapGet labels "function_name").getD (getFunctionName env))) ∧
      (∀ (o : GoStrMap) (req : CreateTimeSeriesRequest),
        (PushCounter env newOk st mn labels now).2 = .ok (o, some req) →
        ∃ ts, req.timeSeries = [ts] ∧
          ts.metric.labels.lookup "function_name" =
            some ((mapGet labels "function_name").getD (getFunctionName env))) := by
  intro env newOk st mn labels now
  refine ⟨fun v o req h => pushMetric_sent_function_label env newOk st mn v labels now o req h,
    fun o req h => ?_⟩
  rw [pushCounter_as_pushMetric_one] at h
  exact pushMetric_sent_function_label env newOk st mn (.vInt 1) labels now o req h

/-- C3 (witness): concrete instantiation of the `PushMetric` part at a label
map lacking the key, with the hypothesis discharged by evaluation. -/
theorem function_name_preserved_or_injected_witness :
    ∃ ts, ({ name := "projects/p48-development",
             timeSeries := [{
               metric := { type := "custom.googleapis.com/m",
                           labels := [("a", "b"), ("function_name", "Buy")] },
               resource := { type := "global",
                             labels := [("project_id", "p48-development")] },
               points := [{ intervalEnd := 0, value := .int64Value 1 }] }] } :
           CreateTimeSeriesRequest).timeSeries = [ts] ∧
      ts.metric.labels.lookup "function_name" = some "Buy" :=
  (function_name_preserved_or_injected emptyEnv true .uninit "m"
    (some [("a", "b")]) 0).1 (.vInt 1)
    (some [("a", "b"), ("function_name", "Buy")]) _ rfl

theorem pushCounter_ready_absent (env : Env) (mn : String)
    (l : List (String × String)) (now : Nat)
    (h : l.lookup "function_name" = none) :
    PushCounter env true .uninit mn (some l) now =
      (.ready, .ok (some (l ++ [("function_name", getFunctionName env)]),
        some { name := "projects/" ++ getProjectID env,
               timeSeries := [{
                 metric := { type := "custom.googleapis.com/" ++ mn,
                             labels := l ++ [("function_name", getFunctionName env)] },
                 resource := { type := "global",
                               labels := [("project_id", getProjectID env)] },
                 points := [{ intervalEnd := now, value := .int64Value 1 }] }] })) := by
  simp [PushCounter, initClient, injectFunctionName_some_eq, h]

/-- C5: when the project id resolves to `"p48-development"` and the service
name resolves to `"Buy"`, calling `PushCounter` with metric name
`"purchase_attempt"` and labels `{"sku": "abc123"}` submits a request with
exactly one time series of metric type
`"custom.googleapis.com/purchase_attempt"`, labels
`{"sku": "abc123", "function_name": "Buy"}`, exactly one point with integer
value 1, and a global-type resource whose labels are
`{"project_id": "p48-development"}`; moreover every request any `PushCounter`
call submits carries only points with integer value 1. -/
theorem purchase_attempt_counter_example :
    ∀ (env : Env) (now : Nat),
      getProjectID env = "p48-development" →
      getFunctionName env = "Buy" →
      (PushCounter env true .uninit "purchase_attempt" (some [("sku", "abc123")]) now =
        (.ready, .ok (some [("sku", "abc123"), ("function_name", "Buy")],
          some { name := "projects/p48-development",
                 timeSeries := [{
                   metric := { type := "custom.googleapis.com/purchase_attempt",
                               labels := [("sku", "abc123"), ("function_name", "Buy")] },
                   resource := { type := "global",
                                 labels := [("project_id", "p48-development")] },
                   points := [{ intervalEnd := now, value := .int64Value 1 }] }] }))) ∧
      (∀ (env2 : Env) (newOk : Bool) (st : ClientStatus) (mn : String)
         (labels : GoStrMap) (now2 : Nat) (o : GoStrMap)
         (req : CreateTimeSeriesRequest),
        (PushCounter env2 newOk st mn labels now2).2 = .ok (o, some req) →
        ∀ ts ∈ req.timeSeries, ∀ p ∈ ts.points, p.value = .int64Value 1) := by
  intro env now hp hf
  constructor
  · have hl : ([("sku", "abc123")] : List (String × String)).lookup "function_name"
        = none := rfl
    rw [pushCounter_ready_absent env "purchase_attempt" [("sku", "abc123")] now hl,
      hp, hf]
    rfl
  · intro env2 newOk st mn labels now2 o req h ts hts p hpt
    cases hs : initClient newOk st with
    | uninit => simp [PushCounter, hs] at h
    | disabled => simp [PushCounter, hs] at h
    | ready =>
      cases labels with
      | none => simp [PushCounter, hs, injectFunctionName] at h
      | some l =>
        simp only [PushCounter, hs, injectFunctionName_some_eq, Outcome.ok.injEq,
          Prod.mk.injEq, Option.some.injEq] at h
        obtain ⟨-, hreq⟩ := h
        subst hreq
        rw [List.mem_singleton] at hts
        subst hts
        rw [List.mem_singleton] at hpt
        subst hpt
        rfl

/-- C5 (witness): the example instantiated at the empty environment, where
both variables are unset and resolve to the defaults. -/
theorem purchase_attempt_counter_example_witness :
    getProjectID emptyEnv = "p48-development" ∧
    getFunctionName emptyEnv = "Buy" ∧
    PushCounter emptyEnv true .uninit "purchase_attempt"
        (some [("sku", "abc123")]) 7 =
      (.ready, .ok (some [("sku", "abc123"), ("function_name", "Buy")],
        some { name := "projects/p48-development",
               timeSeries := [{
                 metric := { type := "custom.googleapis.com/purchase_attempt",
                             labels := [("sku", "abc123"), ("function_name", "Buy")] },
                 resource := { type := "global",
                               labels := [("project_id", "p48-development")] },
                 points := [{ intervalEnd := 7, value := .int64Value 1 }] }] })) :=
  ⟨rfl, rfl, (purchase_attempt_counter_example emptyEnv 7 rfl rfl).1⟩

/-- C6: the project identifier and service name are resolved freshly from the
environment of each call: for any second call made with a (possibly changed)
environment, the submitted request's name and resource labels use the second
environment's resolved project id and the injected label uses the second
environment's resolved service name, independent of the first call's
environment; and with every variable unset the resolution yields the fixed
defaults `"p48-development"` and `"Buy"`. -/
theorem env_resolution_fresh :
    (∀ (env1 env2 : Env) (mn1 mn2 : String) (v1 : GoValue)
       (l1 l2 : List (String × String)) (t1 t2 : Nat) (n : Int),
       ∃ (o : GoStrMap) (req : CreateTimeSeriesRequest),
         (PushMetric env2 true
             (PushMetric env1 true .uninit mn1 v1 (some l1) t1).1
             mn2 (.vInt n) (some l2) t2).2 = .ok (o, some req) ∧
         req.name = "projects/" ++ getProjectID env2 ∧
         (∀ ts ∈ req.timeSeries,
           ts.resource.labels = [("project_id", getProjectID env2)]) ∧
         (l2.lookup "function_name" = none →
           o = some (l2 ++ [("function_name", getFunctionName env2)]))) ∧
    getProjectID emptyEnv = "p48-development" ∧
    getFunctionName emptyEnv = "Buy" := by
  refine ⟨?_, rfl, rfl⟩
  intro env1 env2 mn1 mn2 v1 l1 l2 t1 t2 n
  have h1 : (PushMetric env1 true .uninit mn1 v1 (some l1) t1).1 = .ready := by
    rw [pushMetric_fst]
    rfl
  rw [h1]
  refine ⟨some (if (l2.lookup "function_name").isSome then l2
      else l2 ++ [("function_name", getFunctionName env2)]),
    { name := "projects/" ++ getProjectID env2,
      timeSeries := [{
        metric := { type := "custom.googleapis.com/" ++ mn2,
                    labels := if (l2.lookup "function_name").isSome then l2
                      else l2 ++ [("function_name", getFunctionName env2)] },
        resource := { type := "global",
                      labels := [("project_id", getProjectID env2)] },
        points := [{ intervalEnd := t2, value := .int64Value n }] }] }, ?_, rfl, ?_, ?_⟩
  · simp [PushMetric, initClient, injectFunctionName_some_eq, typedValueOf]
  · intro ts hts
    rw [List.mem_singleton] at hts
    subst hts
    rfl
  · intro hnone
    simp [hnone]

/-- C6 (witness): the two-call statement instantiated with two concrete
environments that disagree on both variables; the second call's request uses
the second environment's values. -/
theorem env_resolution_fresh_witness :
    ∃ (o : GoStrMap) (req : CreateTimeSeriesRequest),
      (PushMetric (fun _ => "q99") true
          (PushMetric emptyEnv true .uninit "m1" (.vBool true) (some []) 1).1
          "m2" (.vInt 5) (some []) 2).2 = .ok (o, some req) ∧
      req.name = "projects/" ++ getProjectID (fun _ => "q99") ∧
      (∀ ts ∈ req.timeSeries,
        ts.resource.labels = [("project_id", getProjectID (fun _ => "q99"))]) ∧
      (([] : List (String × String)).lookup "function_name" = none →
        o = some ([] ++ [("function_name", getFunctionName (fun _ => "q99"))])) :=
  env_resolution_fresh.1 emptyEnv (fun _ => "q99") "m1" "m2" (.vBool true) [] [] 1 2 5

theorem foldl_initClientAttempts_frozen (rest : List Bool) :
    ∀ s : ClientStatus × Nat, s.1 ≠ .uninit →
      List.foldl (fun s x => initClientAttempts x s) s rest = s := by
  induction rest with
  | nil => intro s _; rfl
  | cons a t ih =>
    intro s h
    rw [List.foldl_cons]
    have hstep : initClientAttempts a s = s := by
      obtain ⟨st, k⟩ := s
      cases st
      · exact absurd rfl h
      · rfl
      · rfl
    rw [hstep]
    exact ih s h

/-- C8: modelling the serialized order the one-time guard imposes on
concurrent first emission calls, folding any nonempty sequence of
initialization steps from the uninitialized state performs exactly one
construction attempt, whose outcome — `ready` on success, `disabled` on
failure — is the state every caller observes afterwards, unchanged by all
later steps; and every emission call's resulting client state is exactly the
post-`initClient` state. -/
theorem init_once_single_attempt :
    (∀ (o : Bool) (rest : List Bool),
       List.foldl (fun s x => initClientAttempts x s) (ClientStatus.uninit, 0) (o :: rest) =
         ((if o then ClientStatus.ready else ClientStatus.disabled), 1)) ∧
    (∀ (newOk : Bool) (s : ClientStatus × Nat),
       (initClientAttempts newOk s).1 = initClient newOk s.1) ∧
    (∀ (env : Env) (newOk : Bool) (st : ClientStatus) (mn : String) (v : GoValue)
       (labels : GoStrMap) (now : Nat),
       (PushMetric env newOk st mn v labels now).1 = initClient newOk st) ∧
    (∀ (env : Env) (newOk : Bool) (st : ClientStatus) (mn : String)
       (labels : GoStrMap) (now : Nat),
       (PushCounter env newOk st mn labels now).1 = initClient newOk st) := by
  refine ⟨?_, ?_, pushMetric_fst, pushCounter_fst⟩
  · intro o rest
    rw [List.foldl_cons]
    have h1 : initClientAttempts o (ClientStatus.uninit, 0) =
        ((if o then ClientStatus.ready else ClientStatus.disabled), 1) := by
      cases o <;> rfl
    rw [h1]
    exact foldl_initClientAttempts_frozen rest _ (by cases o <;> simp)
  · intro newOk s
    obtain ⟨st, k⟩ := s
    cases st <;> rfl

/-- C10: with an initialized client, a `PushMetric` call with an unsupported
value still mutates the caller's label map: the `"function_name"` entry is
inserted (when absent) before the type dispatch rejects the value, so the
abort leaves the caller-visible map changed even though no request is sent. -/
theorem unsupported_value_still_mutates_labels :
    ∀ (env : Env) (newOk : Bool) (mn tn : String)
      (l : List (String × String)) (now : Nat),
      l.lookup "function_name" = none →
      PushMetric env newOk .ready mn (.vOther tn) (some l) now =
        (.ready, .ok (some (l ++ [("function_name", getFunctionName env)]), none)) := by
  intro env newOk mn tn l now h
  simp [PushMetric, initClient, injectFunctionName_some_eq, typedValueOf, h]

/-- C10 (witness): concrete instantiation at a non-nil label map lacking the
key, with the hypothesis discharged by evaluation. -/
theorem unsupported_value_still_mutates_labels_witness :
    ([("a", "b")] : List (String × String)).lookup "function_name" = none ∧
    PushMetric emptyEnv true .ready "m" (.vOther "chan int") (some [("a", "b")]) 0 =
      (.ready, .ok (some [("a", "b"), ("function_name", "Buy")], none)) :=
  ⟨rfl, unsupported_value_still_mutates_labels emptyEnv true "m" "chan int"
    [("a", "b")] 0 rfl⟩

end Metrics
